import Mathlib

/-!
# Assessment tasks backend (`src/index.js`)

A shallow embedding of the Express application in `src/index.js`: the auth gate
`authenticateToken`, the six route handlers, and the two MongoDB collections they use.

What the source imports from npm packages is not part of the repository and enters the
embedding in two ways:

* `bcrypt`, `jsonwebtoken` and the `ObjectId` constructor are fields of `Libs`; every
  handler is a function of an arbitrary `Libs`, and a theorem that needs a property of a
  library (for instance that a freshly signed token verifies) states it as a hypothesis;
* a MongoDB collection is a list of documents in natural order, with the unique index on
  `_id` that every collection has, and the driver's ObjectId generator is a counter.

Time is the clock of `jsonwebtoken`: whole seconds.
-/

namespace AssessmentTasks

/-! ## Values -/

/-- A BSON ObjectId, seen as the number spelled by its twelve bytes. -/
structure ObjectId where
  value : Nat
deriving DecidableEq, Repr

/-- Whatever a `try` block of a handler can catch. -/
inductive Error where
  /-- the driver or the server failed (connection lost, write refused, ...) -/
  | store (reason : String)
  /-- E11000: the unique index on `_id` refused the document -/
  | duplicateKey (id : ObjectId)
  /-- the ObjectId constructor rejected its argument -/
  | bson (input : String)
  /-- a TypeError: a property read on `undefined`, a class called without `new` -/
  | typeError (what : String)
  /-- bcrypt rejected its arguments -/
  | bcrypt (reason : String)
deriving DecidableEq, Repr

/-- A value a JSON body can hold in a field bcrypt is handed: the field can be missing
(`undefined`), `null`, a number or a string. -/
inductive Value where
  | undefined
  | null
  | number (n : Int)
  | string (s : String)
deriving DecidableEq, Repr

/-- A document of the `users` collection, as `/register` writes it. -/
structure User where
  _id : ObjectId
  username : String
  password : String
  email : String
deriving DecidableEq, Repr

/-- A document of the `assessments` collection. `userId` is the field the update filter
looks at; `/assessments` never writes it. -/
structure Assessment where
  _id : ObjectId
  title : String
  description : String
  dueDate : String
  userId : Option String
deriving DecidableEq, Repr

/-- The object handed to `jwt.sign` by `/login`. -/
structure Claims where
  email : String
  id : String
deriving DecidableEq, Repr

/-- The object `jwt.verify` hands to its callback: the signed claims with the issue and
expiry times `jsonwebtoken` adds. -/
structure Payload where
  email : String
  id : String
  iat : Nat
  exp : Nat
deriving DecidableEq, Repr

/-- Why `jwt.verify` calls back with an error. -/
inductive JwtError where
  | invalid
  | expired
deriving DecidableEq, Repr

/-- The npm packages the handlers call. -/
structure Libs where
  /-- `bcrypt.hash(password, rounds)`, with the salt it draws; an error is a rejected
  promise -/
  bcryptHash : Value → Nat → Nat → Except Error String
  /-- `bcrypt.compare(password, hash)`; an error is a rejected promise -/
  bcryptCompare : Value → String → Except Error Bool
  /-- `jwt.sign(claims, secret, { expiresIn })` at a clock value, `expiresIn` in seconds -/
  jwtSign : Claims → String → Nat → Nat → String
  /-- `jwt.verify(token, secret, callback)` at a clock value -/
  jwtVerify : String → String → Nat → Except JwtError Payload
  /-- `new ObjectId(id)` -/
  newObjectId : String → Except Error ObjectId
  /-- `ObjectId(id)`, called without `new` as the update handler does -/
  callObjectId : String → Except Error ObjectId

/-- What one request meets outside the process state. -/
structure Env where
  /-- clock of `jsonwebtoken`, in seconds -/
  now : Nat
  /-- salt drawn by `bcrypt.hash` -/
  salt : Nat
  /-- the error the store call of this request throws, if it throws -/
  fault : Option Error

/-- The database `assessmenttasks` together with the driver's ObjectId generator. -/
structure Db where
  users : List User
  assessments : List Assessment
  nextId : Nat
deriving DecidableEq, Repr

/-- The fields the handlers read from `req.body`. The password is whatever value the body
holds there, since bcrypt is particular about it. -/
structure ReqBody where
  username : String
  password : Value
  email : String
  title : String
  description : String
  dueDate : String
deriving DecidableEq, Repr

/-- An incoming request: `req.headers['authorization']`, `req.params.id`, `req.body`, and
`req.user`, which only the auth gate sets. -/
structure Request where
  authorization : Option String
  id : String
  body : ReqBody
  user : Option Payload
deriving DecidableEq, Repr

/-- Response bodies, one constructor per shape the source sends. -/
inductive Body where
  /-- `res.sendStatus(code)`: the status text -/
  | text (s : String)
  /-- `{ message }` -/
  | message (message : String)
  /-- `{ message, userId }` -/
  | registered (message : String) (userId : ObjectId)
  /-- `{ message, token }` -/
  | session (message : String) (token : String)
  /-- `{ message, assessmentId }` -/
  | created (message : String) (assessmentId : ObjectId)
  /-- `{ message, error }` -/
  | failure (message : String) (error : Error)
  /-- the array `res.json(assessments)` sends -/
  | assessments (docs : List Assessment)
deriving DecidableEq, Repr

/-- The token field of a response body, when it has one. -/
def Body.token? : Body → Option String
  | .session _ token => some token
  | _ => none

structure Response where
  status : Nat
  body : Body
deriving DecidableEq, Repr

/-- The collection methods the handlers call. -/
inductive StoreCall where
  | usersInsertOne
  | usersFindOne
  | assessmentsInsertOne
  | assessmentsFind
  | assessmentsUpdateOne
  | assessmentsDeleteOne
deriving DecidableEq, Repr

/-- What a handler has done when it returns: the database it leaves, the collection
methods it called, and the responses it sent, both in order. -/
structure Outcome where
  db : Db
  calls : List StoreCall
  sent : List Response
deriving DecidableEq, Repr

/-- What the auth gate does with a request: it answers itself, or it calls `next()` on the
request with `req.user` set. -/
inductive Gate where
  | respond (r : Response)
  | next (req : Request)
deriving DecidableEq, Repr

/-- How many times the gate calls `next`. -/
def Gate.handlerCalls : Gate → Nat
  | .respond _ => 0
  | .next _ => 1

/-- The responses the gate sends itself. -/
def Gate.sent : Gate → List Response
  | .respond r => [r]
  | .next _ => []

/-! ## JavaScript strings -/

/-- `s.split(sep)` for a one-character separator, on the characters of `s`: the segments
between the separators. -/
def splitChar (sep : Char) : List Char → List (List Char)
  | [] => [[]]
  | c :: cs =>
    if c = sep then [] :: splitChar sep cs
    else
      match splitChar sep cs with
      | [] => [[c]]
      | seg :: rest => (c :: seg) :: rest

/-- The status text `res.sendStatus(code)` sends as body. The source sends 401 and 403
only; the text for any other code is left unspecified. -/
def statusText (code : Nat) : String :=
  if code = 401 then "Unauthorized" else if code = 403 then "Forbidden" else "Status"

/-- `res.sendStatus(code)`. -/
def sendStatus (code : Nat) : Response :=
  ⟨code, .text (statusText code)⟩

/-! ## ObjectId and its hex string -/

/-- The hex digit for a value below sixteen, lower case. -/
def hexChar (d : Nat) : Char :=
  if d < 10 then Char.ofNat (48 + d) else Char.ofNat (87 + d)

/-- The value of a hex digit of either case. -/
def hexValue? (c : Char) : Option Nat :=
  if 48 ≤ c.toNat ∧ c.toNat ≤ 57 then some (c.toNat - 48)
  else if 97 ≤ c.toNat ∧ c.toNat ≤ 102 then some (c.toNat - 87)
  else if 65 ≤ c.toNat ∧ c.toNat ≤ 70 then some (c.toNat - 55)
  else none

/-- The last `width` hex digits of `n`, most significant first. -/
def hexDigits : Nat → Nat → List Char
  | 0, _ => []
  | width + 1, n => hexDigits width (n / 16) ++ [hexChar (n % 16)]

/-- The number a list of hex digits spells; `none` when a character is not a hex digit. -/
def hexNumber? (cs : List Char) : Option Nat :=
  cs.foldl (fun acc c => acc.bind fun a => (hexValue? c).map fun d => a * 16 + d) (some 0)

/-- `ObjectId.prototype.toHexString`, which is also how an ObjectId appears in JSON:
twenty-four lower-case hex digits. -/
def ObjectId.toHexString (o : ObjectId) : String :=
  ⟨hexDigits 24 o.value⟩

/-- The ObjectId constructor on a string of twenty-four hex digits, the one form every
version of the driver accepts; anything else is rejected here. -/
def ObjectId.ofHexString (s : String) : Except Error ObjectId :=
  if s.data.length = 24 then
    match hexNumber? s.data with
    | some n => .ok ⟨n⟩
    | none => .error (.bson s)
  else .error (.bson s)

/-! ## The collections -/

section Collection

variable {α : Type}

/-- `collection.insertOne(doc)` for a document that already carries the `_id` the driver
drew: the write throws when the store fails, or when the unique index on `_id` finds the id
taken; otherwise the document is added at the end. -/
def insertOne (fault : Option Error) (getId : α → ObjectId) (docs : List α) (doc : α) :
    Except Error (List α) :=
  match fault with
  | some e => .error e
  | none =>
    if docs.any (fun d => getId d = getId doc) then .error (.duplicateKey (getId doc))
    else .ok (docs ++ [doc])

/-- `collection.findOne(filter)`: the first document in natural order the filter matches,
or `null`. -/
def findOne (fault : Option Error) (filter : α → Bool) (docs : List α) :
    Except Error (Option α) :=
  match fault with
  | some e => .error e
  | none => .ok (docs.find? filter)

/-- `collection.find().toArray()`: every document, in natural order. -/
def find (fault : Option Error) (docs : List α) : Except Error (List α) :=
  match fault with
  | some e => .error e
  | none => .ok docs

/-- Apply `set` to the first document the filter matches. -/
def updateFirst (filter : α → Bool) (set : α → α) : List α → List α
  | [] => []
  | d :: ds => if filter d then set d :: ds else d :: updateFirst filter set ds

/-- `collection.updateOne(filter, { $set })`: the documents afterwards and `matchedCount`. -/
def updateOne (fault : Option Error) (filter : α → Bool) (set : α → α) (docs : List α) :
    Except Error (List α × Nat) :=
  match fault with
  | some e => .error e
  | none => .ok (updateFirst filter set docs, if docs.any filter then 1 else 0)

/-- `collection.deleteOne(filter)`: the documents afterwards and `deletedCount`. -/
def deleteOne (fault : Option Error) (filter : α → Bool) (docs : List α) :
    Except Error (List α × Nat) :=
  match fault with
  | some e => .error e
  | none => .ok (docs.eraseP filter, if docs.any filter then 1 else 0)

end Collection

/-- The filter `{ email }` of `/login`. -/
def byEmail (email : String) (u : User) : Bool :=
  u.email = email

/-- The filter `{ _id }` of the delete handler. -/
def byId (_id : ObjectId) (a : Assessment) : Bool :=
  a._id = _id

/-- The filter `{ _id, userId }` of the update handler: the document has that id and a
`userId` field equal to the given string. -/
def byIdAndOwner (_id : ObjectId) (userId : String) (a : Assessment) : Bool :=
  a._id = _id ∧ a.userId = some userId

/-- The update `{ $set: { title, description, dueDate } }`. -/
def setFields (body : ReqBody) (a : Assessment) : Assessment :=
  { a with title := body.title, description := body.description, dueDate := body.dueDate }

/-- The database before any request. -/
def Db.empty : Db := ⟨[], [], 0⟩

/-- The database after the driver has drawn an ObjectId from its generator. -/
def Db.drawn (db : Db) : Db := { db with nextId := db.nextId + 1 }

/-! ## The auth gate -/

/-- `req.headers['authorization']?.split(' ')[1]`: `none` is `undefined`. -/
def bearerToken (req : Request) : Option String :=
  match req.authorization with
  | none => none
  | some h => ((splitChar ' ' h.data)[1]?).map String.mk

/-- `authenticateToken` (index.js 39-48). `!token` holds for `undefined` and for the empty
string. -/
def authenticateToken (L : Libs) (secret : String) (env : Env) (req : Request) : Gate :=
  match bearerToken req with
  | none => .respond (sendStatus 401)
  | some token =>
    if token = "" then .respond (sendStatus 401)
    else
      match L.jwtVerify token secret env.now with
      | .error _ => .respond (sendStatus 403)
      | .ok user => .next { req with user := some user }

/-! ## The handlers -/

/-- The document `/register` inserts, with the `_id` the driver adds. -/
def newUser (db : Db) (req : Request) (hashedPassword : String) : User :=
  ⟨⟨db.nextId⟩, req.body.username, hashedPassword, req.body.email⟩

/-- The document `/assessments` inserts, with the `_id` the driver adds: no `userId`. -/
def newAssessment (db : Db) (req : Request) : Assessment :=
  ⟨⟨db.nextId⟩, req.body.title, req.body.description, req.body.dueDate, none⟩

/-- `app.post('/register')` (index.js 51-60). `bcrypt.hash` runs first, inside the `try`:
when it throws, the store is not called. -/
def register (L : Libs) (env : Env) (db : Db) (req : Request) : Outcome :=
  match L.bcryptHash req.body.password 10 env.salt with
  | .error error => ⟨db, [], [⟨500, .failure "Error registering user" error⟩]⟩
  | .ok hashedPassword =>
    match insertOne env.fault User._id db.users (newUser db req hashedPassword) with
    | .ok users =>
      ⟨{ db.drawn with users := users }, [.usersInsertOne],
        [⟨201, .registered "User registered successfully"
          (newUser db req hashedPassword)._id⟩]⟩
    | .error error =>
      ⟨db.drawn, [.usersInsertOne], [⟨500, .failure "Error registering user" error⟩]⟩

/-- `app.post('/login')` (index.js 63-76). `'1h'` is 3600 seconds. `bcrypt.compare` is
called only when a user was found, inside the `try`: when it throws, the `catch` answers. -/
def login (L : Libs) (secret : String) (env : Env) (db : Db) (req : Request) : Outcome :=
  match findOne env.fault (byEmail req.body.email) db.users with
  | .ok (some user) =>
    match L.bcryptCompare req.body.password user.password with
    | .ok true =>
      let token := L.jwtSign ⟨user.email, user._id.toHexString⟩ secret 3600 env.now
      ⟨db, [.usersFindOne], [⟨200, .session "Login successful" token⟩]⟩
    | .ok false =>
      ⟨db, [.usersFindOne], [⟨401, .message "Invalid email or password"⟩]⟩
    | .error error =>
      ⟨db, [.usersFindOne], [⟨500, .failure "Error logging in" error⟩]⟩
  | .ok none =>
    ⟨db, [.usersFindOne], [⟨401, .message "Invalid email or password"⟩]⟩
  | .error error =>
    ⟨db, [.usersFindOne], [⟨500, .failure "Error logging in" error⟩]⟩

/-- `app.post('/assessments')` (index.js 80-89): the document has no `userId`. -/
def createAssessment (env : Env) (db : Db) (req : Request) : Outcome :=
  match insertOne env.fault Assessment._id db.assessments (newAssessment db req) with
  | .ok assessments =>
    ⟨{ db.drawn with assessments := assessments }, [.assessmentsInsertOne],
      [⟨201, .created "Assessment created successfully" (newAssessment db req)._id⟩]⟩
  | .error error =>
    ⟨db.drawn, [.assessmentsInsertOne], [⟨500, .failure "Error creating assessment" error⟩]⟩

/-- `app.get('/assessments')` (index.js 93-101). -/
def listAssessments (env : Env) (db : Db) (_req : Request) : Outcome :=
  match find env.fault db.assessments with
  | .ok assessments => ⟨db, [.assessmentsFind], [⟨200, .assessments assessments⟩]⟩
  | .error error =>
    ⟨db, [.assessmentsFind], [⟨500, .failure "Error fetching assessments" error⟩]⟩

/-- The handler of `app.put('/assessments/:id')` (index.js 104-120), as it runs once the
gate has called `next`. The filter and the update are built before `updateOne` is called:
`ObjectId(id)` first, then `req.user.id`; either can throw into the `catch`. -/
def updateAssessment (L : Libs) (env : Env) (db : Db) (req : Request) : Outcome :=
  match L.callObjectId req.id with
  | .error error => ⟨db, [], [⟨500, .failure "Error updating assessment" error⟩]⟩
  | .ok _id =>
    match req.user with
    | none =>
      ⟨db, [], [⟨500, .failure "Error updating assessment" (.typeError "req.user")⟩]⟩
    | some user =>
      match updateOne env.fault (byIdAndOwner _id user.id) (setFields req.body)
          db.assessments with
      | .ok (assessments, matchedCount) =>
        if matchedCount > 0 then
          ⟨{ db with assessments := assessments }, [.assessmentsUpdateOne],
            [⟨200, .message "Assessment updated successfully"⟩]⟩
        else
          ⟨{ db with assessments := assessments }, [.assessmentsUpdateOne],
            [⟨404, .message "Assessment not found"⟩]⟩
      | .error error =>
        ⟨db, [.assessmentsUpdateOne], [⟨500, .failure "Error updating assessment" error⟩]⟩

/-- The route `app.put('/assessments/:id', authenticateToken, handler)`. -/
def putAssessment (L : Libs) (secret : String) (env : Env) (db : Db) (req : Request) :
    Outcome :=
  match authenticateToken L secret env req with
  | .respond r => ⟨db, [], [r]⟩
  | .next req => updateAssessment L env db req

/-- `app.delete('/assessments/:id')` (index.js 123-136). -/
def deleteAssessment (L : Libs) (env : Env) (db : Db) (req : Request) : Outcome :=
  match L.newObjectId req.id with
  | .error error => ⟨db, [], [⟨500, .failure "Error deleting assessment" error⟩]⟩
  | .ok _id =>
    match deleteOne env.fault (byId _id) db.assessments with
    | .ok (assessments, deletedCount) =>
      if deletedCount > 0 then
        ⟨{ db with assessments := assessments }, [.assessmentsDeleteOne],
          [⟨200, .message "Assessment deleted successfully"⟩]⟩
      else
        ⟨{ db with assessments := assessments }, [.assessmentsDeleteOne],
          [⟨404, .message "Assessment not found"⟩]⟩
    | .error error =>
      ⟨db, [.assessmentsDeleteOne], [⟨500, .failure "Error deleting assessment" error⟩]⟩

/-! ## The application -/

/-- The routes that touch a collection. -/
inductive Route where
  | register
  | login
  | createAssessment
  | listAssessments
  | putAssessment
  | deleteAssessment
deriving DecidableEq, Repr

/-- One request as the server meets it. -/
structure Arrival where
  env : Env
  route : Route
  req : Request

/-- Dispatch of one request. -/
def serve (L : Libs) (secret : String) (db : Db) (a : Arrival) : Outcome :=
  match a.route with
  | .register => register L a.env db a.req
  | .login => login L secret a.env db a.req
  | .createAssessment => createAssessment a.env db a.req
  | .listAssessments => listAssessments a.env db a.req
  | .putAssessment => putAssessment L secret a.env db a.req
  | .deleteAssessment => deleteAssessment L a.env db a.req

/-- The outcomes of a sequence of requests served one after the other, first to last. -/
def serveAll (L : Libs) (secret : String) : Db → List Arrival → List Outcome
  | _, [] => []
  | db, a :: rest => serve L secret db a :: serveAll L secret (serve L secret db a).db rest

/-- The database after a sequence of requests. -/
def dbAfter (L : Libs) (secret : String) : Db → List Arrival → Db
  | db, [] => db
  | db, a :: rest => dbAfter L secret (serve L secret db a).db rest

/-- The id a response reports for a created assessment. -/
def Response.createdId? (r : Response) : Option ObjectId :=
  match r.body with
  | .created _ id => if r.status = 201 then some id else none
  | _ => none

/-- The ids the successful creates of a run returned, in order. -/
def createdIds (outs : List Outcome) : List ObjectId :=
  outs.flatMap fun o => o.sent.filterMap Response.createdId?

/-! ## What the libraries promise -/

/-- The store invariant the driver and the server maintain together: the generator is ahead
of every stored id, and no two documents of a collection share an `_id`. -/
def Db.WF (db : Db) : Prop :=
  (∀ a ∈ db.assessments, a._id.value < db.nextId) ∧
  (db.assessments.map Assessment._id).Nodup

/-- What `jsonwebtoken` promises of the token it signs for `claims` at clock `t` with a
lifetime of `ttl` seconds: it is three base64url segments joined by dots, so it is not
empty and has no space; it verifies to the claims with `iat = t` and `exp = t + ttl` while
the clock is below `exp`, and fails as expired from then on. -/
def SignedToken (L : Libs) (secret : String) (claims : Claims) (ttl t : Nat) : Prop :=
  L.jwtSign claims secret ttl t ≠ "" ∧
  ' ' ∉ (L.jwtSign claims secret ttl t).data ∧
  ∀ now, L.jwtVerify (L.jwtSign claims secret ttl t) secret now =
    if now < t + ttl then .ok ⟨claims.email, claims.id, t, t + ttl⟩ else .error .expired

/-- The part of a header between its first and its second space: the second segment of
`split(' ')` when there is one. -/
def secondSegment (cs : List Char) : List Char :=
  ((cs.dropWhile (fun c => decide (c ≠ ' '))).drop 1).takeWhile (fun c => decide (c ≠ ' '))

/-- No token was sent: the Authorization header is missing, or it has no second
space-separated segment (it has no space), or that segment is empty. -/
def NoToken (req : Request) : Prop :=
  match req.authorization with
  | none => True
  | some h => ' ' ∉ h.data ∨ secondSegment h.data = []

instance NoToken.decidable (req : Request) : Decidable (NoToken req) :=
  match h : req.authorization with
  | none => isTrue (by simp [NoToken, h])
  | some hdr =>
    decidable_of_iff (' ' ∉ hdr.data ∨ secondSegment hdr.data = []) (by simp [NoToken, h])

/-- The token segment of a request that sent one. -/
def tokenSegment (req : Request) : String :=
  match req.authorization with
  | none => ""
  | some h => ⟨secondSegment h.data⟩

/-! ## A reference instance of the libraries

Small stand-ins with the shape of the real packages, used to evaluate the handlers on
concrete requests. -/

namespace Reference

/-- A stand-in for `bcrypt.hash`: cost and salt in front, as in a bcrypt string. Like the
package, it rejects whatever is not a string. -/
def bcryptHash (password : Value) (rounds salt : Nat) : Except Error String :=
  match password with
  | .string p => .ok ⟨hexDigits 2 rounds ++ hexDigits 6 salt ++ p.data⟩
  | _ => .error (.bcrypt "data and salt arguments required")

/-- A stand-in for `bcrypt.compare`. Like the package, it rejects whatever is not a
string. -/
def bcryptCompare (password : Value) (hash : String) : Except Error Bool :=
  match password with
  | .string p => .ok (hash.data.drop 8 = p.data)
  | _ => .error (.bcrypt "data and hash arguments required")

/-- A space-free spelling of a string: six hex digits per character. -/
def encode (s : String) : List Char :=
  s.data.flatMap fun c => hexDigits 6 c.toNat

/-- Inverse of `encode`. -/
def decode : List Char → Option (List Char)
  | [] => some []
  | a :: b :: c :: d :: e :: f :: rest =>
    match hexNumber? [a, b, c, d, e, f], decode rest with
    | some n, some tl => some (Char.ofNat n :: tl)
    | _, _ => none
  | _ => none

/-- A stand-in for `jwt.sign`: claims, issue time, expiry and a tag, joined by dots. -/
def jwtSign (claims : Claims) (secret : String) (ttl t : Nat) : String :=
  ⟨encode claims.email ++ '.' :: encode claims.id ++ '.' :: hexDigits 8 t ++
    '.' :: hexDigits 8 (t + ttl) ++ '.' :: encode secret⟩

/-- The payload of a token whose five parts are well formed and whose tag is the one the
secret gives. -/
def jwtDecode (token secret : String) : Option Payload :=
  match splitChar '.' token.data with
  | [email, id, iat, exp, tag] =>
    match decode email, decode id, hexNumber? iat, hexNumber? exp with
    | some email, some id, some iat, some exp =>
      if tag = encode secret then some ⟨⟨email⟩, ⟨id⟩, iat, exp⟩ else none
    | _, _, _, _ => none
  | _ => none

/-- A stand-in for `jwt.verify`: the signature first, then the expiry. -/
def jwtVerify (token secret : String) (now : Nat) : Except JwtError Payload :=
  match jwtDecode token secret with
  | some payload => if now < payload.exp then .ok payload else .error .expired
  | none => .error .invalid

/-- `ObjectId(id)` where ObjectId is a class, as in the driver versions the comment over
the delete handler speaks to: called without `new` it throws, whatever the id. -/
def callClass (_id : String) : Except Error ObjectId :=
  .error (.typeError "Class constructor ObjectId cannot be invoked without new")

/-- The reference libraries, with ObjectId a class. -/
def libs : Libs :=
  ⟨bcryptHash, bcryptCompare, jwtSign, jwtVerify, ObjectId.ofHexString, callClass⟩

/-- The reference libraries with an older driver, whose ObjectId may be called without
`new` and then constructs. -/
def legacyLibs : Libs :=
  ⟨bcryptHash, bcryptCompare, jwtSign, jwtVerify, ObjectId.ofHexString, ObjectId.ofHexString⟩

end Reference

/-! ## Sample data -/

namespace Sample

/-- A request environment in which the store works. -/
def env : Env := ⟨1000, 7, none⟩

/-- A request environment in which the store call throws. -/
def down : Env := ⟨1000, 7, some (.store "connection closed")⟩

def body : ReqBody :=
  ⟨"ann", .string "pw-ann", "ann@example.org", "Quiz 1", "Chapter one", "2024-06-01"⟩

/-- A request without headers whose path id is the first ObjectId the generator draws. -/
def request : Request := ⟨none, "000000000000000000000000", body, none⟩

/-- The database after one assessment was created in the empty one. -/
def oneAssessment : Db := (createAssessment env Db.empty request).db

/-- The assessment `oneAssessment` holds. -/
def quiz : Assessment := ⟨⟨0⟩, "Quiz 1", "Chapter one", "2024-06-01", none⟩

/-- The secret the sample tokens are signed with. -/
def secret : String := "s3cret"

/-- The claims a login of the sample user signs. -/
def claims : Claims := ⟨"ann@example.org", "000000000000000000000000"⟩

/-- The payload the gate reads from the sample token while it is valid. -/
def payload : Payload := ⟨"ann@example.org", "000000000000000000000000", 1000, 4600⟩

/-- A request that carries a token signed at clock 1000 for the sample user. -/
def authorized : Request :=
  ⟨some ("Bearer " ++ Reference.jwtSign claims secret 3600 1000),
    "000000000000000000000000", body, none⟩

/-- The database after the sample user registered in the empty one. -/
def oneUser : Db := (register Reference.libs env Db.empty request).db

/-- A second registration under the sample user's email, with another password. -/
def rival : Request :=
  ⟨none, "", ⟨"eve", .string "pw-eve", "ann@example.org", "", "", ""⟩, none⟩

/-- A first registration under an email of its own. -/
def newcomer : Request :=
  ⟨none, "", ⟨"bob", .string "pw-bob", "bob@example.org", "", "", ""⟩, none⟩

/-- The sample user as stored. -/
def ann : User := ⟨⟨0⟩, "ann", "0a000007pw-ann", "ann@example.org"⟩

/-- A login under the sample user's email whose password is a number. -/
def numberForAnn : Request :=
  ⟨none, "", ⟨"", .number 1, "ann@example.org", "", "", ""⟩, none⟩

/-- The same login under an email nobody registered. -/
def numberForNobody : Request :=
  ⟨none, "", ⟨"", .number 1, "nobody@example.org", "", "", ""⟩, none⟩

end Sample

/-! ## Lemmas on `split` -/

theorem splitChar_ne_nil (sep : Char) (cs : List Char) : splitChar sep cs ≠ [] := by
  cases cs with
  | nil => simp [splitChar]
  | cons c cs =>
    unfold splitChar
    split
    · simp
    · split <;> simp

theorem splitChar_head (sep : Char) (cs : List Char) :
    (splitChar sep cs)[0]? = some (cs.takeWhile (fun c => decide (c ≠ sep))) := by
  induction cs with
  | nil => simp [splitChar]
  | cons c cs ih =>
    unfold splitChar
    by_cases h : c = sep
    · simp [h]
    · simp only [h, if_false]
      cases hs : splitChar sep cs with
      | nil => exact absurd hs (splitChar_ne_nil sep cs)
      | cons seg rest =>
        rw [hs] at ih
        simp at ih
        simp [h, ih]

theorem splitChar_second (sep : Char) (cs : List Char) :
    (splitChar sep cs)[1]? =
      if sep ∈ cs then
        some (((cs.dropWhile (fun c => decide (c ≠ sep))).drop 1).takeWhile
          (fun c => decide (c ≠ sep)))
      else none := by
  induction cs with
  | nil => simp [splitChar]
  | cons c cs ih =>
    unfold splitChar
    by_cases h : c = sep
    · subst h
      have := splitChar_head c cs
      simp at this
      simp [this]
    · simp only [h, if_false]
      cases hs : splitChar sep cs with
      | nil => exact absurd hs (splitChar_ne_nil sep cs)
      | cons seg rest =>
        rw [hs] at ih
        have h2 : ¬ sep = c := fun e => h e.symm
        simp at ih
        simp [h, h2, ih]

theorem bearerToken_eq (req : Request) :
    bearerToken req =
      match req.authorization with
      | none => none
      | some h => if ' ' ∈ h.data then some ⟨secondSegment h.data⟩ else none := by
  unfold bearerToken
  cases req.authorization with
  | none => rfl
  | some h =>
    simp only [splitChar_second, secondSegment]
    split <;> simp

/-! ## The auth gate -/

/-- C1. The gate answers 401 without calling the handler exactly when no token was sent
(header missing, second space-separated segment missing or empty); with a token segment
whose verification fails it answers 403 without calling the handler; otherwise it calls
the handler once, with `req.user` set to the verified claims, and sends nothing itself. -/
theorem authenticateToken_outcomes (L : Libs) (secret : String) (env : Env) (req : Request) :
    (((authenticateToken L secret env req).sent = [sendStatus 401] ∧
        (authenticateToken L secret env req).handlerCalls = 0) ↔ NoToken req) ∧
    (∀ e, ¬ NoToken req → L.jwtVerify (tokenSegment req) secret env.now = .error e →
      authenticateToken L secret env req = .respond (sendStatus 403) ∧
        (authenticateToken L secret env req).handlerCalls = 0) ∧
    (∀ user, ¬ NoToken req → L.jwtVerify (tokenSegment req) secret env.now = .ok user →
      authenticateToken L secret env req = .next { req with user := some user } ∧
        (authenticateToken L secret env req).handlerCalls = 1 ∧
        (authenticateToken L secret env req).sent = []) := by
  have hstr : ∀ cs : List Char, (String.mk cs = "") ↔ cs = [] := by
    intro cs
    constructor
    · intro h
      have := congrArg String.data h
      simpa using this
    · intro h
      subst h
      rfl
  unfold authenticateToken NoToken tokenSegment
  rw [bearerToken_eq]
  cases hreq : req.authorization with
  | none => simp [Gate.sent, Gate.handlerCalls]
  | some h =>
    by_cases hsp : ' ' ∈ h.data
    · by_cases hempty : secondSegment h.data = []
      · simp [hsp, hempty, hstr, Gate.sent, Gate.handlerCalls]
      · simp only [hsp, if_true, hstr, hempty, if_false, not_true_eq_false, false_or,
          not_false_eq_true, true_implies]
        refine ⟨?_, ?_, ?_⟩
        · cases hv : L.jwtVerify ⟨secondSegment h.data⟩ secret env.now with
          | error e => simp [Gate.sent, sendStatus]
          | ok user => simp [Gate.sent]
        · intro e he
          simp [he, Gate.handlerCalls]
        · intro user hu
          simp [hu, Gate.handlerCalls, Gate.sent]
    · simp [hsp, Gate.sent, Gate.handlerCalls]

/-! ## Login -/

/-- Counterexample to C3 as stated: the store works, the password is the number 1. Under
an email nobody registered the login is answered 401; under the sample user's email
`bcrypt.compare` throws inside the `try` and the login is answered 500, so the two
failures differ and the answer tells whether the email is registered. -/
theorem login_number_password_tells_email :
    Sample.env.fault = none ∧
    (login Reference.libs Sample.secret Sample.env Sample.oneUser
      Sample.numberForNobody).sent = [⟨401, .message "Invalid email or password"⟩] ∧
    (login Reference.libs Sample.secret Sample.env Sample.oneUser Sample.numberForAnn).sent
      = [⟨500, .failure "Error logging in" (.bcrypt "data and hash arguments required")⟩] := by
  decide

/-- C3, amended. Two logins that fail without a store error, one for an email no user has
and one for which `bcrypt.compare` returns false against the hash of the user found, get
the same response: 401 with `{ message: 'Invalid email or password' }`. A login for which
`bcrypt.compare` throws, the user found, is answered 500 with the error. -/
theorem login_failures_alike (L : Libs) (secret : String) (env₁ env₂ : Env) (db₁ db₂ : Db)
    (req₁ req₂ : Request) (user : User)
    (hs₁ : env₁.fault = none) (hs₂ : env₂.fault = none)
    (hunknown : ∀ u ∈ db₁.users, u.email ≠ req₁.body.email)
    (hfound : db₂.users.find? (byEmail req₂.body.email) = some user)
    (hwrong : L.bcryptCompare req₂.body.password user.password = .ok false) :
    (login L secret env₁ db₁ req₁).sent = [⟨401, .message "Invalid email or password"⟩] ∧
    (login L secret env₂ db₂ req₂).sent = (login L secret env₁ db₁ req₁).sent ∧
    ∀ (env₃ : Env) (db₃ : Db) (req₃ : Request) (u : User) (e : Error), env₃.fault = none →
      db₃.users.find? (byEmail req₃.body.email) = some u →
      L.bcryptCompare req₃.body.password u.password = .error e →
      (login L secret env₃ db₃ req₃).sent = [⟨500, .failure "Error logging in" e⟩] := by
  have h1 : db₁.users.find? (byEmail req₁.body.email) = none := by
    rw [List.find?_eq_none]
    intro u hu
    simpa [byEmail] using hunknown u hu
  refine ⟨?_, ?_, ?_⟩
  · simp [login, findOne, hs₁, h1]
  · simp [login, findOne, hs₁, hs₂, h1, hfound, hwrong]
  · intro env₃ db₃ req₃ u e hs₃ hu he
    simp [login, findOne, hs₃, hu, he]

/-- Witness for C3: an unknown email in the empty store, a wrong password for the sample
user. -/
theorem login_failures_alike_witness :
    (login Reference.libs Sample.secret Sample.env Db.empty Sample.request).sent
      = [⟨401, .message "Invalid email or password"⟩] ∧
    (login Reference.libs Sample.secret Sample.env Sample.oneUser Sample.rival).sent
      = (login Reference.libs Sample.secret Sample.env Db.empty Sample.request).sent :=
  have h := login_failures_alike Reference.libs Sample.secret Sample.env Sample.env Db.empty
    Sample.oneUser Sample.request Sample.rival Sample.ann
    (by decide) (by decide) (by decide) (by decide) rfl
  ⟨h.1, h.2.1⟩

/-! ## Store failures -/

/-- C9. In each of the six handlers, when the store call throws `e` the handler sends one
response, 500 with a message and `e` itself, and has called the store once. In register
the store is called once `bcrypt.hash` has returned, in update and delete once the
ObjectId is built. -/
theorem store_failure_is_500 (L : Libs) (secret : String) (env : Env) (db : Db)
    (req : Request) (e : Error) :
    (∀ hashedPassword, L.bcryptHash req.body.password 10 env.salt = .ok hashedPassword →
      insertOne env.fault User._id db.users (newUser db req hashedPassword) = .error e →
      (register L env db req).sent = [⟨500, .failure "Error registering user" e⟩] ∧
      (register L env db req).calls = [.usersInsertOne]) ∧
    (findOne env.fault (byEmail req.body.email) db.users = .error e →
      (login L secret env db req).sent = [⟨500, .failure "Error logging in" e⟩] ∧
      (login L secret env db req).calls = [.usersFindOne]) ∧
    (insertOne env.fault Assessment._id db.assessments (newAssessment db req) = .error e →
      (createAssessment env db req).sent = [⟨500, .failure "Error creating assessment" e⟩] ∧
      (createAssessment env db req).calls = [.assessmentsInsertOne]) ∧
    (find env.fault db.assessments = .error e →
      (listAssessments env db req).sent = [⟨500, .failure "Error fetching assessments" e⟩] ∧
      (listAssessments env db req).calls = [.assessmentsFind]) ∧
    (∀ _id user, L.callObjectId req.id = .ok _id → req.user = some user →
      updateOne env.fault (byIdAndOwner _id user.id) (setFields req.body) db.assessments
        = .error e →
      (updateAssessment L env db req).sent
        = [⟨500, .failure "Error updating assessment" e⟩] ∧
      (updateAssessment L env db req).calls = [.assessmentsUpdateOne]) ∧
    (∀ _id, L.newObjectId req.id = .ok _id →
      deleteOne env.fault (byId _id) db.assessments = .error e →
      (deleteAssessment L env db req).sent
        = [⟨500, .failure "Error deleting assessment" e⟩] ∧
      (deleteAssessment L env db req).calls = [.assessmentsDeleteOne]) := by
  refine ⟨?_, ?_, ?_, ?_, ?_, ?_⟩
  · intro hashedPassword hh h
    simp [register, hh, h]
  · intro h
    simp [login, h]
  · intro h
    simp [createAssessment, h]
  · intro h
    simp [listAssessments, h]
  · intro _id user hid hu h
    simp [updateAssessment, hid, hu, h]
  · intro _id hid h
    simp [deleteAssessment, hid, h]

/-! ## Lemmas on the collections -/

theorem updateFirst_of_forall_not {α : Type} (filter : α → Bool) (set : α → α) (docs : List α)
    (h : ∀ d ∈ docs, filter d = false) : updateFirst filter set docs = docs := by
  induction docs with
  | nil => rfl
  | cons d ds ih =>
    have hd : filter d = false := h d (List.mem_cons_self d ds)
    have hds : ∀ x ∈ ds, filter x = false := fun x hx => h x (List.mem_cons_of_mem d hx)
    simp [updateFirst, hd, ih hds]

theorem insertOne_fresh {α : Type} (getId : α → ObjectId) (docs : List α) (doc : α)
    (h : ∀ d ∈ docs, getId d ≠ getId doc) :
    insertOne none getId docs doc = .ok (docs ++ [doc]) := by
  have hany : docs.any (fun d => decide (getId d = getId doc)) = false := by
    rw [List.any_eq_false]
    intro d hd
    simpa using h d hd
  unfold insertOne
  rw [hany]
  rfl

theorem eq_of_same_id {docs : List Assessment} (hnd : (docs.map Assessment._id).Nodup)
    {a b : Assessment} (ha : a ∈ docs) (hb : b ∈ docs) (h : b._id = a._id) : b = a :=
  List.inj_on_of_nodup_map hnd hb ha h

theorem eraseP_eq_erase_of_unique (p : Assessment → Bool) (a : Assessment) :
    ∀ docs : List Assessment, a ∈ docs → p a = true → (∀ b ∈ docs, p b = true → b = a) →
      docs.eraseP p = docs.erase a := by
  intro docs
  induction docs with
  | nil => intro h; cases h
  | cons d ds ih =>
    intro hmem hp huniq
    by_cases hd : p d = true
    · have : d = a := huniq d (List.mem_cons_self d ds) hd
      subst this
      simp [List.eraseP_cons, hd]
    · have hne : d ≠ a := fun e => hd (e ▸ hp)
      have hmem2 : a ∈ ds := by
        rcases List.mem_cons.mp hmem with h | h
        · exact absurd h.symm hne
        · exact h
      have := ih hmem2 hp (fun b hb => huniq b (List.mem_cons_of_mem d hb))
      simp [List.eraseP_cons, hd, List.erase_cons, hne, this]

/-! ## Lemmas on inserts -/

theorem insertOne_ok {α : Type} {fault : Option Error} {getId : α → ObjectId} {docs : List α}
    {doc : α} {docs₂ : List α} (h : insertOne fault getId docs doc = .ok docs₂) :
    docs₂ = docs ++ [doc] ∧ ∀ d ∈ docs, getId d ≠ getId doc := by
  unfold insertOne at h
  cases fault with
  | some e => cases h
  | none =>
    simp only at h
    split at h
    · cases h
    · rename_i hany
      cases h
      refine ⟨rfl, ?_⟩
      intro d hd
      have := Bool.eq_false_iff.mpr hany
      rw [List.any_eq_false] at this
      simpa using this d hd

theorem map_id_updateFirst (filter : Assessment → Bool) (body : ReqBody)
    (docs : List Assessment) :
    (updateFirst filter (setFields body) docs).map Assessment._id
      = docs.map Assessment._id := by
  induction docs with
  | nil => rfl
  | cons d ds ih =>
    unfold updateFirst
    split
    · simp [setFields]
    · simp [ih]

theorem wf_of_ids {db db₂ : Db} (hwf : db.WF) (hn : db.nextId ≤ db₂.nextId)
    (hsub : (db₂.assessments.map Assessment._id).Sublist (db.assessments.map Assessment._id)) :
    db₂.WF := by
  refine ⟨?_, hwf.2.sublist hsub⟩
  intro a ha
  have h1 : a._id ∈ db₂.assessments.map Assessment._id := List.mem_map_of_mem _ ha
  have h2 := hsub.subset h1
  obtain ⟨b, hb, hba⟩ := List.mem_map.mp h2
  have := hwf.1 b hb
  rw [hba] at this
  exact Nat.lt_of_lt_of_le this hn

theorem createAssessment_step (env : Env) (db : Db) (req : Request) (hwf : db.WF) :
    (createAssessment env db req).db.WF ∧
    (createAssessment env db req).db.nextId = db.nextId + 1 ∧
    ((createAssessment env db req).sent.filterMap Response.createdId? = [] ∨
      (createAssessment env db req).sent.filterMap Response.createdId? = [⟨db.nextId⟩]) := by
  unfold createAssessment
  split
  case h_2 =>
    refine ⟨wf_of_ids hwf (Nat.le_succ _) (List.Sublist.refl _), rfl, Or.inl ?_⟩
    simp [Response.createdId?]
  case h_1 docs h =>
    obtain ⟨hdocs, hfresh⟩ := insertOne_ok h
    subst hdocs
    refine ⟨⟨?_, ?_⟩, rfl, Or.inr ?_⟩
    · intro a ha
      simp only [Db.drawn, List.mem_append, List.mem_singleton] at ha ⊢
      rcases ha with ha | ha
      · exact Nat.lt_succ_of_lt (hwf.1 a ha)
      · subst ha
        simp [newAssessment]
    · simp only [List.map_append, List.map_cons, List.map_nil]
      rw [List.nodup_append]
      refine ⟨hwf.2, List.nodup_singleton _, ?_⟩
      intro i hi hi2
      obtain ⟨b, hb, hba⟩ := List.mem_map.mp hi
      rw [List.mem_singleton] at hi2
      exact hfresh b hb (hba.trans hi2)
    · simp [Response.createdId?, newAssessment]

/-! ## Assessments -/

/-- Where `ObjectId(id)` constructs when called without `new`: for an authenticated
requester `user.id` and a stored assessment `a` whose `userId` is not that id, or is
absent, PUT on its id answers 404 'Assessment not found' and leaves the database as it
was; and every document POST /assessments adds has no `userId`. -/
theorem put_owner_mismatch_of_callable (L : Libs) (secret : String) (env : Env) (db : Db) (req : Request)
    (user : Payload) (a : Assessment)
    (hauth : authenticateToken L secret env req = .next { req with user := some user })
    (hid : L.callObjectId req.id = .ok a._id)
    (hstore : env.fault = none)
    (hnd : (db.assessments.map Assessment._id).Nodup)
    (hmem : a ∈ db.assessments)
    (howner : a.userId ≠ some user.id) :
    (putAssessment L secret env db req).sent = [⟨404, .message "Assessment not found"⟩] ∧
    (putAssessment L secret env db req).db = db ∧
    ∀ (env₀ : Env) (db₀ : Db) (req₀ : Request),
      ∀ b ∈ (createAssessment env₀ db₀ req₀).db.assessments,
        b ∈ db₀.assessments ∨ b.userId = none := by
  have hno : ∀ b ∈ db.assessments, byIdAndOwner a._id user.id b = false := by
    intro b hb
    by_cases h : b._id = a._id
    · have := eq_of_same_id hnd hmem hb h
      subst this
      simp [byIdAndOwner, howner]
    · simp [byIdAndOwner, h]
  have hany : db.assessments.any (byIdAndOwner a._id user.id) = false := by
    rw [List.any_eq_false]
    intro b hb
    simp [hno b hb]
  refine ⟨?_, ?_, ?_⟩
  · simp [putAssessment, hauth, updateAssessment, hid, updateOne, hstore, hany]
  · simp [putAssessment, hauth, updateAssessment, hid, updateOne, hstore, hany,
      updateFirst_of_forall_not _ _ _ hno]
  · intro env₀ db₀ req₀ b hb
    unfold createAssessment insertOne at hb
    cases hf : env₀.fault with
    | some e =>
      simp [hf, Db.drawn] at hb
      exact Or.inl hb
    | none =>
      simp only [hf] at hb
      split at hb
      · rename_i hdup
        split at hdup
        · cases hdup
        · cases hdup
          rename_i docs hdocs
          simp at hb
          rcases hb with hb | hb
          · exact Or.inl hb
          · right
            subst hb
            rfl
      · rename_i e herr
        simp [Db.drawn] at hb
        exact Or.inl hb

set_option maxRecDepth 20000 in
/-- The older driver on the sample data: the sample token holder updates the ownerless
sample assessment and is answered 404. -/
theorem put_owner_mismatch_of_callable_sample :
    authenticateToken Reference.legacyLibs Sample.secret Sample.env Sample.authorized
      = .next { Sample.authorized with user := some Sample.payload } ∧
    Sample.quiz ∈ Sample.oneAssessment.assessments ∧
    (putAssessment Reference.legacyLibs Sample.secret Sample.env Sample.oneAssessment
      Sample.authorized).sent = [⟨404, .message "Assessment not found"⟩] ∧
    (putAssessment Reference.legacyLibs Sample.secret Sample.env Sample.oneAssessment
      Sample.authorized).db = Sample.oneAssessment :=
  have h := put_owner_mismatch_of_callable Reference.legacyLibs Sample.secret Sample.env
    Sample.oneAssessment Sample.authorized Sample.payload Sample.quiz (by decide) rfl
    (by decide) (by decide) (by decide) (by decide)
  ⟨by decide, by decide, h.1, h.2.1⟩

set_option maxRecDepth 20000 in
/-- C4, the code at the failing input. ObjectId is a class; the sample assessment is stored
without `userId`, the request carries a token the gate accepts, and its path id is the
assessment's, as `new ObjectId(id)` shows. PUT answers 500 'Error updating assessment',
not 404: `ObjectId(id)` without `new` throws inside the `try`, `updateOne` is never called,
and the database is unchanged. -/
theorem put_without_new_is_500 :
    authenticateToken Reference.libs Sample.secret Sample.env Sample.authorized
      = .next { Sample.authorized with user := some Sample.payload } ∧
    Sample.quiz ∈ Sample.oneAssessment.assessments ∧
    Sample.quiz.userId = none ∧
    Reference.libs.newObjectId Sample.authorized.id = .ok Sample.quiz._id ∧
    (putAssessment Reference.libs Sample.secret Sample.env Sample.oneAssessment
      Sample.authorized).sent
      = [⟨500, .failure "Error updating assessment"
          (.typeError "Class constructor ObjectId cannot be invoked without new")⟩] ∧
    (putAssessment Reference.libs Sample.secret Sample.env Sample.oneAssessment
      Sample.authorized).calls = [] ∧
    (putAssessment Reference.libs Sample.secret Sample.env Sample.oneAssessment
      Sample.authorized).db = Sample.oneAssessment := by
  refine ⟨by decide, by decide, rfl, rfl, by decide, by decide, by decide⟩

/-- C5. In a store with unique ids that holds the assessment `a`, DELETE on its id answers
200 and removes `a` and nothing else; a following GET lists no record with that id; and a
second DELETE on the id answers 404 'Assessment not found'. Every successful POST
/assessments leaves such a store, holding the record whose id it returned. -/
theorem delete_then_gone (L : Libs) (env : Env) (db : Db) (req : Request) (a : Assessment)
    (hid : L.newObjectId req.id = .ok a._id)
    (hstore : env.fault = none)
    (hnd : (db.assessments.map Assessment._id).Nodup)
    (hmem : a ∈ db.assessments) :
    (deleteAssessment L env db req).sent
      = [⟨200, .message "Assessment deleted successfully"⟩] ∧
    (deleteAssessment L env db req).db = { db with assessments := db.assessments.erase a } ∧
    (∀ b, b ∈ (deleteAssessment L env db req).db.assessments ↔ b ∈ db.assessments ∧ b ≠ a) ∧
    (∀ (env₂ : Env) (req₂ : Request), env₂.fault = none →
      (listAssessments env₂ (deleteAssessment L env db req).db req₂).sent
        = [⟨200, .assessments (db.assessments.erase a)⟩] ∧
      ∀ b ∈ db.assessments.erase a, b._id ≠ a._id) ∧
    (∀ (env₃ : Env) (req₃ : Request), env₃.fault = none → L.newObjectId req₃.id = .ok a._id →
      (deleteAssessment L env₃ (deleteAssessment L env db req).db req₃).sent
        = [⟨404, .message "Assessment not found"⟩]) ∧
    (∀ (env₀ : Env) (db₀ : Db) (req₀ : Request) (id : ObjectId), db₀.WF →
      (createAssessment env₀ db₀ req₀).sent
        = [⟨201, .created "Assessment created successfully" id⟩] →
      ((createAssessment env₀ db₀ req₀).db.assessments.map Assessment._id).Nodup ∧
      ∃ b ∈ (createAssessment env₀ db₀ req₀).db.assessments, b._id = id) := by
  have hnd0 : db.assessments.Nodup := List.Nodup.of_map _ hnd
  have hany : db.assessments.any (byId a._id) = true := by
    rw [List.any_eq_true]
    exact ⟨a, hmem, by simp [byId]⟩
  have herase : db.assessments.eraseP (byId a._id) = db.assessments.erase a :=
    eraseP_eq_erase_of_unique _ a _ hmem (by simp [byId])
      (fun b hb hp => eq_of_same_id hnd hmem hb (by simpa [byId] using hp))
  have hdb : (deleteAssessment L env db req).db
      = { db with assessments := db.assessments.erase a } := by
    simp [deleteAssessment, hid, deleteOne, hstore, hany, herase]
  have hgone : ∀ b ∈ db.assessments.erase a, b._id ≠ a._id := by
    intro b hb h
    have hb2 := (List.Nodup.mem_erase_iff hnd0).mp hb
    exact hb2.1 (eq_of_same_id hnd hmem hb2.2 h)
  refine ⟨?_, hdb, ?_, ?_, ?_, ?_⟩
  rotate_right
  · intro env₀ db₀ req₀ id hwf₀ hsent
    refine ⟨(createAssessment_step env₀ db₀ req₀ hwf₀).1.2, ?_⟩
    unfold createAssessment at hsent ⊢
    split at hsent
    · rename_i docs h
      rw [(insertOne_ok h).1]
      refine ⟨newAssessment db₀ req₀, by simp, ?_⟩
      simpa using hsent
    · simp at hsent
  · simp [deleteAssessment, hid, deleteOne, hstore, hany]
  · intro b
    rw [hdb]
    simp only
    rw [List.Nodup.mem_erase_iff hnd0]
    exact ⟨fun h => ⟨h.2, h.1⟩, fun h => ⟨h.2, h.1⟩⟩
  · intro env₂ req₂ h₂
    refine ⟨?_, hgone⟩
    rw [hdb]
    simp [listAssessments, find, h₂]
  · intro env₃ req₃ h₃ hid₃
    have hany₃ : (db.assessments.erase a).any (byId a._id) = false := by
      rw [List.any_eq_false]
      intro b hb
      simpa [byId] using hgone b hb
    rw [hdb]
    simp [deleteAssessment, hid₃, deleteOne, h₃, hany₃]

/-- Witness for C5: deleting the assessment created in the empty store. -/
theorem delete_then_gone_witness :
    Reference.libs.newObjectId Sample.request.id = .ok Sample.quiz._id ∧
    (createAssessment Sample.env Db.empty Sample.request).sent
      = [⟨201, .created "Assessment created successfully" Sample.quiz._id⟩] ∧
    (deleteAssessment Reference.libs Sample.env Sample.oneAssessment Sample.request).sent
      = [⟨200, .message "Assessment deleted successfully"⟩] ∧
    (deleteAssessment Reference.libs Sample.env
      (deleteAssessment Reference.libs Sample.env Sample.oneAssessment Sample.request).db
      Sample.request).sent = [⟨404, .message "Assessment not found"⟩] :=
  have h := delete_then_gone Reference.libs Sample.env Sample.oneAssessment Sample.request
    Sample.quiz rfl (by decide) (by decide) (by decide)
  ⟨rfl, by decide, h.1, h.2.2.2.2.1 Sample.env Sample.request (by decide) rfl⟩

/-- Counterexample to C6 as stated: the path id `abc` belongs to no record, and DELETE
answers 500, not 404, because `new ObjectId('abc')` throws inside the `try`. -/
theorem delete_malformed_id_is_500 :
    (∀ a ∈ Sample.oneAssessment.assessments, a._id.toHexString ≠ "abc") ∧
    (deleteAssessment Reference.libs Sample.env Sample.oneAssessment
      { Sample.request with id := "abc" }).sent
      = [⟨500, .failure "Error deleting assessment" (.bson "abc")⟩] := by
  decide

/-- C6, amended. DELETE reads nothing of the request but the path id. When the ObjectId
constructor accepts the id and the store does not throw, the answer is 200 if a record has
that id, and 404 with the database unchanged if none has; when the constructor rejects the
id the answer is 500 and the database is unchanged. -/
theorem delete_by_id_alone (L : Libs) (env : Env) (db : Db) (req req₂ : Request)
    (hsame : req₂.id = req.id) (hstore : env.fault = none) :
    deleteAssessment L env db req₂ = deleteAssessment L env db req ∧
    (∀ _id, L.newObjectId req.id = .ok _id → (∃ a ∈ db.assessments, a._id = _id) →
      (deleteAssessment L env db req).sent
        = [⟨200, .message "Assessment deleted successfully"⟩]) ∧
    (∀ _id, L.newObjectId req.id = .ok _id → (∀ a ∈ db.assessments, a._id ≠ _id) →
      (deleteAssessment L env db req).sent = [⟨404, .message "Assessment not found"⟩] ∧
      (deleteAssessment L env db req).db = db) ∧
    (∀ e, L.newObjectId req.id = .error e →
      (deleteAssessment L env db req).sent
        = [⟨500, .failure "Error deleting assessment" e⟩] ∧
      (deleteAssessment L env db req).db = db) := by
  refine ⟨?_, ?_, ?_, ?_⟩
  · simp [deleteAssessment, hsame]
  · intro _id hid hex
    have hany : db.assessments.any (byId _id) = true := by
      rw [List.any_eq_true]
      obtain ⟨a, ha, h⟩ := hex
      exact ⟨a, ha, by simp [byId, h]⟩
    simp [deleteAssessment, hid, deleteOne, hstore, hany]
  · intro _id hid hno
    have hany : db.assessments.any (byId _id) = false := by
      rw [List.any_eq_false]
      intro b hb
      simpa [byId] using hno b hb
    have hkeep : db.assessments.eraseP (byId _id) = db.assessments :=
      List.eraseP_of_forall_not (fun b hb => by simpa [byId] using hno b hb)
    simp [deleteAssessment, hid, deleteOne, hstore, hany, hkeep]
  · intro e he
    simp [deleteAssessment, he]

/-- Witness for C6: with and without an Authorization header, on a stored id. -/
theorem delete_by_id_alone_witness :
    deleteAssessment Reference.libs Sample.env Sample.oneAssessment Sample.authorized
      = deleteAssessment Reference.libs Sample.env Sample.oneAssessment Sample.request ∧
    (deleteAssessment Reference.libs Sample.env Sample.oneAssessment Sample.request).sent
      = [⟨200, .message "Assessment deleted successfully"⟩] :=
  have h := delete_by_id_alone Reference.libs Sample.env Sample.oneAssessment Sample.request
    Sample.authorized (by decide) (by decide)
  ⟨h.1, h.2.1 ⟨0⟩ rfl ⟨Sample.quiz, by decide, by decide⟩⟩

/-- C7. In a store whose generator is ahead of the stored ids and that does not throw,
POST /assessments answers 201 with an id no record had; a following GET lists the earlier
records unchanged, then one new record with that id, the posted title, description and
dueDate, and no `userId`; from the empty store that record is the whole list. -/
theorem create_then_list (env : Env) (db : Db) (req : Request)
    (hstore : env.fault = none)
    (hwf : ∀ a ∈ db.assessments, a._id.value < db.nextId) :
    (createAssessment env db req).sent
      = [⟨201, .created "Assessment created successfully" ⟨db.nextId⟩⟩] ∧
    (∀ a ∈ db.assessments, a._id ≠ ⟨db.nextId⟩) ∧
    (∀ (env₂ : Env) (req₂ : Request), env₂.fault = none →
      (listAssessments env₂ (createAssessment env db req).db req₂).sent
        = [⟨200, .assessments (db.assessments ++
            [⟨⟨db.nextId⟩, req.body.title, req.body.description, req.body.dueDate, none⟩])⟩]) ∧
    (db.assessments = [] → ∀ (env₂ : Env) (req₂ : Request), env₂.fault = none →
      (listAssessments env₂ (createAssessment env db req).db req₂).sent
        = [⟨200, .assessments
            [⟨⟨db.nextId⟩, req.body.title, req.body.description, req.body.dueDate, none⟩]⟩]) := by
  have hfresh : ∀ a ∈ db.assessments, a._id ≠ ⟨db.nextId⟩ := by
    intro a ha h
    have := hwf a ha
    rw [h] at this
    exact Nat.lt_irrefl _ this
  have hins := insertOne_fresh Assessment._id db.assessments (newAssessment db req) hfresh
  have hlist : ∀ (env₂ : Env) (req₂ : Request), env₂.fault = none →
      (listAssessments env₂ (createAssessment env db req).db req₂).sent
        = [⟨200, .assessments (db.assessments ++
            [⟨⟨db.nextId⟩, req.body.title, req.body.description, req.body.dueDate, none⟩])⟩] := by
    intro env₂ req₂ h₂
    simp only [createAssessment, hstore, hins]
    simp [listAssessments, find, h₂, newAssessment]
  refine ⟨?_, hfresh, hlist, ?_⟩
  · simp only [createAssessment, hstore, hins]
    simp [newAssessment]
  · intro hempty env₂ req₂ h₂
    have := hlist env₂ req₂ h₂
    rw [hempty] at this
    simpa using this

/-- Witness for C7: an empty title and a malformed date, posted to a store with one record. -/
theorem create_then_list_witness :
    (createAssessment Sample.env Sample.oneAssessment
      { Sample.request with body := ⟨"", .string "", "", "", "", "not a date"⟩ }).sent
      = [⟨201, .created "Assessment created successfully" ⟨1⟩⟩] ∧
    (listAssessments Sample.env (createAssessment Sample.env Sample.oneAssessment
      { Sample.request with body := ⟨"", .string "", "", "", "", "not a date"⟩ }).db Sample.request).sent
      = [⟨200, .assessments [Sample.quiz, ⟨⟨1⟩, "", "", "not a date", none⟩]⟩] :=
  have h := create_then_list Sample.env Sample.oneAssessment
    { Sample.request with body := ⟨"", .string "", "", "", "", "not a date"⟩ } (by decide) (by decide)
  ⟨h.1, h.2.2.1 Sample.env Sample.request (by decide)⟩

/-! ## Unique ids -/

theorem updateOne_ids {env : Env} {filter : Assessment → Bool} {body : ReqBody}
    {docs docs₂ : List Assessment} {n : Nat}
    (h : updateOne env.fault filter (setFields body) docs = .ok (docs₂, n)) :
    docs₂.map Assessment._id = docs.map Assessment._id := by
  unfold updateOne at h
  cases hf : env.fault with
  | some e => rw [hf] at h; cases h
  | none =>
    rw [hf] at h
    simp only [Except.ok.injEq, Prod.mk.injEq] at h
    rw [← h.1]
    exact map_id_updateFirst _ _ _

theorem deleteOne_sublist {env : Env} {filter : Assessment → Bool}
    {docs docs₂ : List Assessment} {n : Nat}
    (h : deleteOne env.fault filter docs = .ok (docs₂, n)) : docs₂.Sublist docs := by
  unfold deleteOne at h
  cases hf : env.fault with
  | some e => rw [hf] at h; cases h
  | none =>
    rw [hf] at h
    simp only [Except.ok.injEq, Prod.mk.injEq] at h
    rw [← h.1]
    exact List.eraseP_sublist _

theorem updateAssessment_step (L : Libs) (env : Env) (db : Db) (req : Request) (hwf : db.WF) :
    (updateAssessment L env db req).db.WF ∧
    (updateAssessment L env db req).db.nextId = db.nextId ∧
    (updateAssessment L env db req).sent.filterMap Response.createdId? = [] := by
  unfold updateAssessment
  split
  · exact ⟨hwf, rfl, by simp [Response.createdId?]⟩
  · split
    · exact ⟨hwf, rfl, by simp [Response.createdId?]⟩
    · split
      · rename_i docs n h
        have hdocs := updateOne_ids h
        split
        · exact ⟨wf_of_ids hwf (Nat.le_refl _) (hdocs ▸ List.Sublist.refl _), rfl,
            by simp [Response.createdId?]⟩
        · exact ⟨wf_of_ids hwf (Nat.le_refl _) (hdocs ▸ List.Sublist.refl _), rfl,
            by simp [Response.createdId?]⟩
      · exact ⟨hwf, rfl, by simp [Response.createdId?]⟩

theorem deleteAssessment_step (L : Libs) (env : Env) (db : Db) (req : Request) (hwf : db.WF) :
    (deleteAssessment L env db req).db.WF ∧
    (deleteAssessment L env db req).db.nextId = db.nextId ∧
    (deleteAssessment L env db req).sent.filterMap Response.createdId? = [] := by
  unfold deleteAssessment
  split
  · exact ⟨hwf, rfl, by simp [Response.createdId?]⟩
  · split
    · rename_i docs n h
      have hdocs := deleteOne_sublist h
      split
      · exact ⟨wf_of_ids hwf (Nat.le_refl _) (hdocs.map _), rfl,
          by simp [Response.createdId?]⟩
      · exact ⟨wf_of_ids hwf (Nat.le_refl _) (hdocs.map _), rfl,
          by simp [Response.createdId?]⟩
    · exact ⟨hwf, rfl, by simp [Response.createdId?]⟩

theorem serve_step (L : Libs) (secret : String) (db : Db) (a : Arrival) (hwf : db.WF) :
    (serve L secret db a).db.WF ∧
    db.nextId ≤ (serve L secret db a).db.nextId ∧
    ((serve L secret db a).sent.filterMap Response.createdId? = [] ∨
      ((serve L secret db a).sent.filterMap Response.createdId? = [⟨db.nextId⟩] ∧
        (serve L secret db a).db.nextId = db.nextId + 1)) := by
  unfold serve
  cases a.route with
  | register =>
    simp only
    unfold register
    split
    · exact ⟨hwf, Nat.le_refl _, Or.inl (by simp [Response.createdId?])⟩
    · split
      · exact ⟨wf_of_ids hwf (Nat.le_succ _) (List.Sublist.refl _), Nat.le_succ _,
          Or.inl (by simp [Response.createdId?])⟩
      · exact ⟨wf_of_ids hwf (Nat.le_succ _) (List.Sublist.refl _), Nat.le_succ _,
          Or.inl (by simp [Response.createdId?])⟩
  | login =>
    simp only
    unfold login
    split
    · split
      · exact ⟨hwf, Nat.le_refl _, Or.inl (by simp [Response.createdId?])⟩
      · exact ⟨hwf, Nat.le_refl _, Or.inl (by simp [Response.createdId?])⟩
      · exact ⟨hwf, Nat.le_refl _, Or.inl (by simp [Response.createdId?])⟩
    · exact ⟨hwf, Nat.le_refl _, Or.inl (by simp [Response.createdId?])⟩
    · exact ⟨hwf, Nat.le_refl _, Or.inl (by simp [Response.createdId?])⟩
  | createAssessment =>
    simp only
    obtain ⟨h1, h2, h3⟩ := createAssessment_step a.env db a.req hwf
    refine ⟨h1, by omega, ?_⟩
    rcases h3 with h3 | h3
    · exact Or.inl h3
    · exact Or.inr ⟨h3, h2⟩
  | listAssessments =>
    simp only
    unfold listAssessments
    split
    · exact ⟨hwf, Nat.le_refl _, Or.inl (by simp [Response.createdId?])⟩
    · exact ⟨hwf, Nat.le_refl _, Or.inl (by simp [Response.createdId?])⟩
  | putAssessment =>
    simp only
    unfold putAssessment
    cases hg : authenticateToken L secret a.env a.req with
    | respond r =>
      refine ⟨hwf, Nat.le_refl _, Or.inl ?_⟩
      unfold authenticateToken at hg
      split at hg
      · cases hg
        simp [Response.createdId?, sendStatus]
      · split at hg
        · cases hg
          simp [Response.createdId?, sendStatus]
        · split at hg
          · cases hg
            simp [Response.createdId?, sendStatus]
          · cases hg
    | next req₂ =>
      obtain ⟨h1, h2, h3⟩ := updateAssessment_step L a.env db req₂ hwf
      exact ⟨h1, by simp only [h2]; exact Nat.le_refl _, Or.inl h3⟩
  | deleteAssessment =>
    simp only
    obtain ⟨h1, h2, h3⟩ := deleteAssessment_step L a.env db a.req hwf
    exact ⟨h1, by simp only [h2]; exact Nat.le_refl _, Or.inl h3⟩

theorem serveAll_ids (L : Libs) (secret : String) (arrivals : List Arrival) :
    ∀ db : Db, db.WF →
      (dbAfter L secret db arrivals).WF ∧
      (createdIds (serveAll L secret db arrivals)).Nodup ∧
      ∀ i ∈ createdIds (serveAll L secret db arrivals), db.nextId ≤ i.value := by
  induction arrivals with
  | nil =>
    intro db hwf
    exact ⟨hwf, by simp [serveAll, createdIds], by simp [serveAll, createdIds]⟩
  | cons a rest ih =>
    intro db hwf
    obtain ⟨h1, h2, h3⟩ := serve_step L secret db a hwf
    obtain ⟨i1, i2, i3⟩ := ih (serve L secret db a).db h1
    have hsplit : createdIds (serveAll L secret db (a :: rest))
        = (serve L secret db a).sent.filterMap Response.createdId?
          ++ createdIds (serveAll L secret (serve L secret db a).db rest) := by
      simp [serveAll, createdIds]
    refine ⟨i1, ?_, ?_⟩
    · rw [hsplit]
      rcases h3 with h3 | ⟨h3, h4⟩
      · rw [h3]
        simpa using i2
      · rw [h3, List.singleton_append, List.nodup_cons]
        refine ⟨?_, i2⟩
        intro hmem
        have := i3 _ hmem
        rw [h4] at this
        simp at this
    · intro i hi
      rw [hsplit, List.mem_append] at hi
      rcases hi with hi | hi
      · rcases h3 with h3 | ⟨h3, _⟩
        · rw [h3] at hi
          cases hi
        · rw [h3, List.mem_singleton] at hi
          subst hi
          exact Nat.le_refl _
      · exact Nat.le_trans h2 (i3 i hi)

/-- C8. After any sequence of requests served from the empty database, no two assessments
share an id, and the ids the successful creates returned are pairwise different. -/
theorem ids_stay_unique (L : Libs) (secret : String) (arrivals : List Arrival) :
    ((dbAfter L secret Db.empty arrivals).assessments.map Assessment._id).Nodup ∧
    (createdIds (serveAll L secret Db.empty arrivals)).Nodup := by
  have hempty : Db.empty.WF := by
    refine ⟨?_, ?_⟩
    · intro a ha
      cases ha
    · exact List.nodup_nil
  obtain ⟨h1, h2, _⟩ := serveAll_ids L secret arrivals Db.empty hempty
  exact ⟨h1.2, h2⟩

/-! ## Tokens -/

theorem string_mk_data (s : String) : String.mk s.data = s := rfl

theorem bearerToken_of_header (token : String) (req : Request)
    (hsp : ' ' ∉ token.data) (h : req.authorization = some ("Bearer " ++ token)) :
    bearerToken req = some token := by
  have htake : token.data.takeWhile (fun c => !decide (c = ' ')) = token.data := by
    rw [List.takeWhile_eq_self_iff]
    intro c hc
    have : c ≠ ' ' := fun e => hsp (e ▸ hc)
    simpa using this
  have hdata : ("Bearer " ++ token).data
      = 'B' :: 'e' :: 'a' :: 'r' :: 'e' :: 'r' :: ' ' :: token.data := by
    rw [String.data_append]
    rfl
  rw [bearerToken_eq, h]
  simp only [hdata, secondSegment]
  simp [List.dropWhile, htake, string_mk_data]

theorem gate_on_signed_token (L : Libs) (secret : String) (claims : Claims) (ttl t : Nat)
    (hjwt : SignedToken L secret claims ttl t) (env : Env) (req : Request)
    (h : req.authorization = some ("Bearer " ++ L.jwtSign claims secret ttl t)) :
    authenticateToken L secret env req =
      if env.now < t + ttl then
        .next { req with user := some ⟨claims.email, claims.id, t, t + ttl⟩ }
      else .respond (sendStatus 403) := by
  obtain ⟨hne, hsp, hver⟩ := hjwt
  unfold authenticateToken
  rw [bearerToken_of_header _ req hsp h]
  simp only [hne, if_false, hver]
  by_cases hlt : env.now < t + ttl
  · simp [hlt]
  · simp [hlt]

set_option maxRecDepth 20000 in
theorem sample_token_signed :
    SignedToken Reference.libs Sample.secret Sample.claims 3600 1000 := by
  have hdec : Reference.jwtDecode (Reference.jwtSign Sample.claims Sample.secret 3600 1000)
      Sample.secret = some Sample.payload := by decide
  refine ⟨by decide, by decide, ?_⟩
  intro now
  show Reference.jwtVerify (Reference.jwtSign Sample.claims Sample.secret 3600 1000)
      Sample.secret now = _
  unfold Reference.jwtVerify
  rw [hdec]
  rfl

theorem login_found {L : Libs} {secret : String} {env : Env} {db : Db} {req : Request}
    {token : String}
    (h : (login L secret env db req).sent = [⟨200, .session "Login successful" token⟩]) :
    ∃ u, db.users.find? (byEmail req.body.email) = some u ∧
      L.bcryptCompare req.body.password u.password = .ok true ∧
      token = L.jwtSign ⟨u.email, u._id.toHexString⟩ secret 3600 env.now := by
  unfold login findOne at h
  cases hf : env.fault with
  | some e => simp [hf] at h
  | none =>
    cases hu : db.users.find? (byEmail req.body.email) with
    | none => simp [hf, hu] at h
    | some u =>
      cases hc : L.bcryptCompare req.body.password u.password with
      | error e => simp [hf, hu, hc] at h
      | ok b =>
        cases b with
        | false => simp [hf, hu, hc] at h
        | true =>
          simp [hf, hu, hc] at h
          exact ⟨u, rfl, hc, h.symm⟩

/-- C10. A successful login at clock `t` returns the token signed, with a lifetime of 3600
seconds, for the email and the id of the user `findOne({ email })` returned and
`bcrypt.compare` accepted; while the clock is below `t + 3600` the gate calls the handler
with those claims and `exp = t + 3600`, and from `t + 3600` on it answers 403. -/
theorem login_token_lifetime (L : Libs) (secret : String) (env : Env) (db : Db)
    (req : Request) (token : String)
    (hlogin : (login L secret env db req).sent = [⟨200, .session "Login successful" token⟩])
    (hjwt : ∀ u, db.users.find? (byEmail req.body.email) = some u →
      SignedToken L secret ⟨u.email, u._id.toHexString⟩ 3600 env.now) :
    ∃ u, db.users.find? (byEmail req.body.email) = some u ∧
      L.bcryptCompare req.body.password u.password = .ok true ∧
      u.email = req.body.email ∧
      token = L.jwtSign ⟨u.email, u._id.toHexString⟩ secret 3600 env.now ∧
      ∀ (env₂ : Env) (req₂ : Request), req₂.authorization = some ("Bearer " ++ token) →
        (env₂.now < env.now + 3600 →
          authenticateToken L secret env₂ req₂ = .next { req₂ with
            user := some (Payload.mk u.email u._id.toHexString env.now (env.now + 3600)) }) ∧
        (env.now + 3600 ≤ env₂.now →
          authenticateToken L secret env₂ req₂ = .respond (sendStatus 403)) := by
  obtain ⟨u, hu, hc, htoken⟩ := login_found hlogin
  have hemail : u.email = req.body.email := by
    have := List.find?_some hu
    simpa [byEmail] using this
  refine ⟨u, hu, hc, hemail, htoken, ?_⟩
  intro env₂ req₂ hreq
  rw [htoken] at hreq
  have hgate := gate_on_signed_token L secret _ 3600 env.now (hjwt u hu) env₂ req₂ hreq
  constructor
  · intro hlt
    rw [hgate, if_pos hlt]
  · intro hge
    rw [hgate, if_neg (Nat.not_lt.mpr hge)]

set_option maxRecDepth 20000 in
/-- Witness for C10: the sample user logs in at clock 1000; the token passes the gate at
clock 4599 and is refused at clock 4600. -/
theorem login_token_lifetime_witness :
    (login Reference.libs Sample.secret Sample.env Sample.oneUser Sample.request).sent
      = [⟨200, .session "Login successful"
          (Reference.jwtSign Sample.claims Sample.secret 3600 1000)⟩] ∧
    authenticateToken Reference.libs Sample.secret ⟨4599, 0, none⟩ Sample.authorized
      = .next { Sample.authorized with user := some Sample.payload } ∧
    authenticateToken Reference.libs Sample.secret ⟨4600, 0, none⟩ Sample.authorized
      = .respond (sendStatus 403) := by
  have hlogin : (login Reference.libs Sample.secret Sample.env Sample.oneUser
      Sample.request).sent = [⟨200, .session "Login successful"
        (Reference.jwtSign Sample.claims Sample.secret 3600 1000)⟩] := by decide
  have hfind : Sample.oneUser.users.find? (byEmail Sample.request.body.email)
      = some Sample.ann := by decide
  have hjwt : ∀ u, Sample.oneUser.users.find? (byEmail Sample.request.body.email) = some u →
      SignedToken Reference.libs Sample.secret ⟨u.email, u._id.toHexString⟩ 3600
        Sample.env.now := by
    intro u hu
    rw [hfind] at hu
    cases hu
    exact sample_token_signed
  obtain ⟨u, hu, _, _, _, h⟩ := login_token_lifetime Reference.libs Sample.secret Sample.env
    Sample.oneUser Sample.request _ hlogin hjwt
  rw [hfind] at hu
  cases hu
  have h1 := (h ⟨4599, 0, none⟩ Sample.authorized rfl).1 (by decide)
  have h2 := (h ⟨4600, 0, none⟩ Sample.authorized rfl).2 (by decide)
  exact ⟨hlogin, h1, h2⟩

/-! ## Register, then login -/

/-- Counterexample to C2 as stated: the email is already registered under another password.
The second registration succeeds, and the login with its email and password is refused,
because `findOne({ email })` returns the older user. -/
theorem login_after_duplicate_email_is_401 :
    (register Reference.libs Sample.env Sample.oneUser Sample.rival).sent
      = [⟨201, .registered "User registered successfully" ⟨1⟩⟩] ∧
    (login Reference.libs Sample.secret Sample.env
      (register Reference.libs Sample.env Sample.oneUser Sample.rival).db Sample.rival).sent
      = [⟨401, .message "Invalid email or password"⟩] := by
  decide

/-- C2, amended. If POST /register succeeds and no user stored before had the same email,
a following POST /login with the same email and password, the store not throwing, answers
200 with a token for which the gate calls the handler, with the new user as `req.user`,
while the token is not an hour old. A login, the store not throwing, whose email matches
no stored user, or for which `bcrypt.compare` returns false against the hash of the user
found, is answered 401; one for which `bcrypt.compare` throws is answered 500; neither
body has a token. -/
theorem register_then_login (L : Libs) (secret : String) (env₁ env₂ : Env) (db : Db)
    (req : Request)
    (hreg : (register L env₁ db req).sent.map Response.status = [201])
    (hnew : ∀ u ∈ db.users, u.email ≠ req.body.email)
    (hstore : env₂.fault = none)
    (hbcrypt : ∀ hashedPassword,
      L.bcryptHash req.body.password 10 env₁.salt = .ok hashedPassword →
      L.bcryptCompare req.body.password hashedPassword = .ok true)
    (hjwt : SignedToken L secret ⟨req.body.email, ObjectId.toHexString ⟨db.nextId⟩⟩ 3600
      env₂.now) :
    (∃ token, (login L secret env₂ (register L env₁ db req).db req).sent
        = [⟨200, .session "Login successful" token⟩] ∧
      ∀ (env₃ : Env) (req₃ : Request), env₃.now < env₂.now + 3600 →
        req₃.authorization = some ("Bearer " ++ token) →
        authenticateToken L secret env₃ req₃ = .next { req₃ with
          user := some (Payload.mk req.body.email (ObjectId.toHexString ⟨db.nextId⟩)
            env₂.now (env₂.now + 3600)) } ∧
        (authenticateToken L secret env₃ req₃).handlerCalls = 1) ∧
    (∀ (env₄ : Env) (db₄ : Db) (req₄ : Request), env₄.fault = none →
      (db₄.users.find? (byEmail req₄.body.email) = none ∨
        ∃ u, db₄.users.find? (byEmail req₄.body.email) = some u ∧
          L.bcryptCompare req₄.body.password u.password = .ok false) →
      (login L secret env₄ db₄ req₄).sent = [⟨401, .message "Invalid email or password"⟩] ∧
      ∀ r ∈ (login L secret env₄ db₄ req₄).sent, r.body.token? = none) ∧
    ∀ (env₅ : Env) (db₅ : Db) (req₅ : Request) (u : User) (e : Error), env₅.fault = none →
      db₅.users.find? (byEmail req₅.body.email) = some u →
      L.bcryptCompare req₅.body.password u.password = .error e →
      (login L secret env₅ db₅ req₅).sent = [⟨500, .failure "Error logging in" e⟩] ∧
      ∀ r ∈ (login L secret env₅ db₅ req₅).sent, r.body.token? = none := by
  refine ⟨?_, ?_, ?_⟩
  · obtain ⟨hashed, hhash, husers⟩ : ∃ hashed,
        L.bcryptHash req.body.password 10 env₁.salt = .ok hashed ∧
        (register L env₁ db req).db.users = db.users ++ [newUser db req hashed] := by
      unfold register at hreg
      split at hreg
      · simp at hreg
      · rename_i hashed hh
        split at hreg
        · rename_i users h
          refine ⟨hashed, hh, ?_⟩
          simp only [register, hh, h]
          exact (insertOne_ok h).1
        · simp at hreg
    have hfind : (db.users ++ [newUser db req hashed]).find? (byEmail req.body.email)
        = some (newUser db req hashed) := by
      have hnone : db.users.find? (byEmail req.body.email) = none := by
        rw [List.find?_eq_none]
        intro u hu
        simpa [byEmail] using hnew u hu
      rw [List.find?_append, hnone]
      simp [byEmail, newUser]
    refine ⟨L.jwtSign ⟨req.body.email, ObjectId.toHexString ⟨db.nextId⟩⟩ secret 3600 env₂.now,
      ?_, ?_⟩
    · unfold login findOne
      rw [hstore, husers]
      simp only [hfind]
      simp [newUser, hbcrypt hashed hhash]
    · intro env₃ req₃ hlt hreq
      rw [gate_on_signed_token L secret _ 3600 env₂.now hjwt env₃ req₃ hreq, if_pos hlt]
      exact ⟨rfl, rfl⟩
  · intro env₄ db₄ req₄ hs hfail
    have hsent : (login L secret env₄ db₄ req₄).sent
        = [⟨401, .message "Invalid email or password"⟩] := by
      rcases hfail with h | ⟨u, hu, hc⟩
      · simp [login, findOne, hs, h]
      · simp [login, findOne, hs, hu, hc]
    refine ⟨hsent, ?_⟩
    intro r hr
    rw [hsent, List.mem_singleton] at hr
    rw [hr]
    rfl
  · intro env₅ db₅ req₅ u e hs hu he
    have hsent : (login L secret env₅ db₅ req₅).sent
        = [⟨500, .failure "Error logging in" e⟩] := by
      simp [login, findOne, hs, hu, he]
    refine ⟨hsent, ?_⟩
    intro r hr
    rw [hsent, List.mem_singleton] at hr
    rw [hr]
    rfl

set_option maxRecDepth 20000 in
theorem sample_newcomer_signed :
    SignedToken Reference.libs Sample.secret
      ⟨"bob@example.org", ObjectId.toHexString ⟨1⟩⟩ 3600 1000 := by
  have hdec : Reference.jwtDecode
      (Reference.jwtSign ⟨"bob@example.org", ObjectId.toHexString ⟨1⟩⟩ Sample.secret 3600 1000)
      Sample.secret = some ⟨"bob@example.org", ObjectId.toHexString ⟨1⟩, 1000, 4600⟩ := by
    decide
  refine ⟨by decide, by decide, ?_⟩
  intro now
  show Reference.jwtVerify
      (Reference.jwtSign ⟨"bob@example.org", ObjectId.toHexString ⟨1⟩⟩ Sample.secret 3600 1000)
      Sample.secret now = _
  unfold Reference.jwtVerify
  rw [hdec]

set_option maxRecDepth 20000 in
/-- Witness for C2: a newcomer registers next to the sample user and logs in. -/
theorem register_then_login_witness :
    (register Reference.libs Sample.env Sample.oneUser Sample.newcomer).sent
      = [⟨201, .registered "User registered successfully" ⟨1⟩⟩] ∧
    ∃ token, (login Reference.libs Sample.secret Sample.env
        (register Reference.libs Sample.env Sample.oneUser Sample.newcomer).db
        Sample.newcomer).sent = [⟨200, .session "Login successful" token⟩] ∧
      (authenticateToken Reference.libs Sample.secret Sample.env
        { Sample.request with authorization := some ("Bearer " ++ token) }).handlerCalls = 1 := by
  have hb : ∀ hashedPassword,
      Reference.libs.bcryptHash Sample.newcomer.body.password 10 Sample.env.salt
        = .ok hashedPassword →
      Reference.libs.bcryptCompare Sample.newcomer.body.password hashedPassword
        = .ok true := by
    intro hashed hh
    have h0 : Reference.libs.bcryptHash Sample.newcomer.body.password 10 Sample.env.salt
        = .ok "0a000007pw-bob" := rfl
    rw [h0] at hh
    cases hh
    rfl
  have h := register_then_login Reference.libs Sample.secret Sample.env Sample.env
    Sample.oneUser Sample.newcomer (by decide) (by decide) (by decide) hb
    sample_newcomer_signed
  obtain ⟨token, h1, h2⟩ := h.1
  exact ⟨by decide, token, h1, (h2 Sample.env _ (by decide) rfl).2⟩

/-- Witness for C9: the store is down for each of the six handlers. -/
theorem store_failure_is_500_witness :
    (register Reference.libs Sample.down Db.empty Sample.request).sent
      = [⟨500, .failure "Error registering user" (.store "connection closed")⟩] ∧
    (deleteAssessment Reference.libs Sample.down Sample.oneAssessment Sample.request).sent
      = [⟨500, .failure "Error deleting assessment" (.store "connection closed")⟩] ∧
    (deleteAssessment Reference.libs Sample.down Sample.oneAssessment Sample.request).calls
      = [.assessmentsDeleteOne] :=
  have h := store_failure_is_500 Reference.libs Sample.secret Sample.down Sample.oneAssessment
    Sample.request (.store "connection closed")
  have h₀ := store_failure_is_500 Reference.libs Sample.secret Sample.down Db.empty
    Sample.request (.store "connection closed")
  ⟨(h₀.1 "0a000007pw-ann" rfl rfl).1, (h.2.2.2.2.2 ⟨0⟩ rfl rfl).1,
    (h.2.2.2.2.2 ⟨0⟩ rfl rfl).2⟩

set_option maxRecDepth 20000 in
/-- Witness for C1: no header, an empty second segment, a bad token and a good token. -/
theorem authenticateToken_outcomes_witness :
    authenticateToken Reference.libs Sample.secret Sample.env Sample.request
      = .respond (sendStatus 401) ∧
    authenticateToken Reference.libs Sample.secret Sample.env
      { Sample.request with authorization := some "Bearer  x" } = .respond (sendStatus 401) ∧
    authenticateToken Reference.libs Sample.secret Sample.env
      { Sample.request with authorization := some "Bearer x.y.z" }
      = .respond (sendStatus 403) ∧
    (authenticateToken Reference.libs Sample.secret Sample.env Sample.authorized).handlerCalls
      = 1 := by
  have h := authenticateToken_outcomes Reference.libs Sample.secret Sample.env
    Sample.authorized
  have h₂ := authenticateToken_outcomes Reference.libs Sample.secret Sample.env
    { Sample.request with authorization := some "Bearer x.y.z" }
  exact ⟨by decide, by decide,
    (h₂.2.1 .invalid (by decide) rfl).1,
    (h.2.2 Sample.payload (by decide) rfl).2.1⟩

end AssessmentTasks
